import Mathlib

/-!
Shallow embedding of the `mona-kay/odsc-model-evaluation` notebooks.

The repository consists of three Jupyter notebooks
(`evaluating_stakeholder_needs.ipynb`, `exercises_life_expectancy.ipynb`,
`exercises_air_quality.ipynb`).  Each notebook is a linear sequence of cells
that load a tabular dataset, clean it, pick feature columns by a correlation
threshold, split into train/test sets, standardize, fit a linear regression,
and print metrics.  All numeric work is done by direct calls into
pandas / numpy / scikit-learn / statsmodels.

The embedding has three layers:

* an exact-arithmetic (`ℚ`) model of the tabular data and of the pandas
  operations the notebooks call (`fillna`, column selection, `drop`,
  correlation thresholding, the `status` recode of the life-expectancy
  notebook, `reset_index`), with pandas' `KeyError` / `FileNotFoundError` /
  `ValueError` failures rendered as `Except Err`;
* a real-number (`ℝ`) model of the scikit-learn / statsmodels numeric stage
  (`StandardScaler`, `LinearRegression`, `r2_score`, `mean_squared_error`,
  `sm.OLS`); the notebooks run these in floating point, which is embedded
  as exact real arithmetic;
* a structural model of each notebook as a list of operations with their
  variable reads/writes and their external effects, used for claims about
  cell ordering, dependency direction, and the I/O boundary.

Floating-point rounding of the external libraries is not modelled; the
claims under study are about data flow, cell ordering, error propagation,
determinism and exact discrete facts, none of which depend on float error.
-/

namespace ModelEval

/-- A single cell of a pandas dataframe: a (rational) number, a string, or a
missing value (pandas `NaN`). -/
inductive Cell where
  | num (q : ℚ)
  | str (s : String)
  | na
deriving DecidableEq

/-- A pandas dataframe: a list of named columns, each a list of cells.
Rows are implicit: the `i`-th entry of every column belongs to row `i`. -/
structure DataFrame where
  cols : List (String × List Cell)
deriving DecidableEq

/-- The failures the notebooks can hit, all of which are unhandled in the
source: `KeyError` (bad column label), `FileNotFoundError` (missing CSV),
`ValueError` (NaN reaching a scikit-learn fit, or `reset_index` clashing
with an existing `index` column). -/
inductive Err where
  | keyError
  | fileNotFound
  | valueError
deriving DecidableEq

/-- Decidable equality of fallible results, for concrete evaluation. -/
instance {ε α : Type} [DecidableEq ε] [DecidableEq α] : DecidableEq (Except ε α) := fun a b =>
  match a, b with
  | .ok x, .ok y =>
    match decEq x y with
    | isTrue h => isTrue (by rw [h])
    | isFalse h => isFalse (by intro hc; cases hc; exact h rfl)
  | .error e, .error e' =>
    match decEq e e' with
    | isTrue h => isTrue (by rw [h])
    | isFalse h => isFalse (by intro hc; cases hc; exact h rfl)
  | .ok _, .error _ => isFalse (by intro hc; cases hc)
  | .error _, .ok _ => isFalse (by intro hc; cases hc)

namespace DataFrame

/-- The column labels, in order. -/
def names (df : DataFrame) : List String :=
  df.cols.map Prod.fst

/-- Label lookup, as in `df["name"]`: the first column with that label. -/
def getCol? (df : DataFrame) (name : String) : Option (List Cell) :=
  (df.cols.find? (fun c => c.1 = name)).map Prod.snd

/-- `df["name"]` as the notebooks use it: raises `KeyError` when the label
is absent. -/
def getColE (df : DataFrame) (name : String) : Except Err (List Cell) :=
  match df.getCol? name with
  | some cs => .ok cs
  | none => .error .keyError

end DataFrame

/-- The cell-level substitution performed by `fillna(v)`: a missing value
becomes the constant `v`, every present value (number or string) is kept. -/
def fillCell (v : ℚ) (c : Cell) : Cell :=
  match c with
  | .na => .num v
  | c => c

/-- `df.fillna(v)` (source: `X = X.fillna(0)` and `df = df.fillna(0)`):
every missing cell of every column is replaced by the constant `v`;
no other cell changes. -/
def DataFrame.fillna (df : DataFrame) (v : ℚ) : DataFrame :=
  ⟨df.cols.map (fun c => (c.1, c.2.map (fillCell v)))⟩

/-- `df[names]` column selection (source: `X = df[target_corr.index]`):
`KeyError` when any requested label is absent, otherwise the requested
columns in the requested order. -/
def DataFrame.select (df : DataFrame) (ns : List String) : Except Err DataFrame :=
  if ns.all (fun n => (df.getCol? n).isSome) then
    .ok ⟨ns.map (fun n => (n, (df.getCol? n).getD []))⟩
  else .error .keyError

/-- `df.drop(labels, axis="columns")` (source: `X = X.drop("target", ...)`,
`X.drop(["target", "s4", "s6"], ...)`): `KeyError` when any label is
absent (pandas default `errors="raise"`), otherwise those columns removed. -/
def DataFrame.drop (df : DataFrame) (ns : List String) : Except Err DataFrame :=
  if ns.all (fun n => n ∈ df.names) then
    .ok ⟨df.cols.filter (fun c => c.1 ∉ ns)⟩
  else .error .keyError

/-- A column is numeric (pandas dtype float/int, so included in `df.corr()`)
iff it holds no string cell; a column with only numbers and missing values
is loaded as float64. -/
def isNumericCol (cs : List Cell) : Bool :=
  cs.all (fun c => match c with | .str _ => false | _ => true)

/-- The labels of the numeric columns, in dataframe order: the index of the
matrix returned by `df.corr()`. -/
def numericCols (df : DataFrame) : List String :=
  (df.cols.filter (fun c => isNumericCol c.2)).map Prod.fst

/-- The numbers present in a column (pandas drops missing values pairwise
when computing correlations). -/
def presentNums (cs : List Cell) : List ℚ :=
  cs.filterMap (fun c => match c with | .num q => some q | _ => none)

/-- The pairwise-complete observations of two columns: the rows where both
cells are numbers, as pandas `corr` uses them. -/
def pairedVals (xs ys : List Cell) : List (ℚ × ℚ) :=
  (xs.zip ys).filterMap
    (fun p => match p with
      | (.num a, .num b) => some (a, b)
      | _ => none)

/-- Mean of a list of rationals (0 on the empty list, where pandas would
produce NaN; the NaN case is handled by the callers' comparisons below). -/
def qmean (l : List ℚ) : ℚ := l.sum / l.length

/-- Centered cross-product sum `Σ (xᵢ - x̄)(yᵢ - ȳ)` of a list of pairs:
the common numerator of covariance and, on the diagonal, variance. -/
def sCross (ps : List (ℚ × ℚ)) : ℚ :=
  let mx := qmean (ps.map Prod.fst)
  let my := qmean (ps.map Prod.snd)
  (ps.map (fun p => (p.1 - mx) * (p.2 - my))).sum

/-- The thresholding test of
`np.absolute(df.corr().round(2)[y]) > t` in exact arithmetic.

With `S_xy, S_xx, S_yy` the centered sums, the Pearson correlation is
`S_xy / sqrt (S_xx * S_yy)`, and for the two-decimal thresholds used by the
notebooks (`t = 0.3, 0.5, 0.2`), `|corr rounded to 2 decimals| > t` holds
iff `|corr| > t + 0.005` (numpy rounds half to even, so a correlation of
exactly `t + 0.005` rounds down to `t` and fails the strict test, matching
the strict inequality here).  Squaring removes the square root:
the test is `S_xy² > t'² * S_xx * S_yy` with `t' = t + 0.005`.
When a column is constant or fewer than two paired observations exist,
`S_xy = 0` and the test fails, exactly as pandas' NaN correlation fails
the `>` comparison. -/
def corrExceeds (ps : List (ℚ × ℚ)) (t' : ℚ) : Bool :=
  decide (t' ^ 2 * sCross (ps.map (fun p => (p.1, p.1)))
            * sCross (ps.map (fun p => (p.2, p.2)))
          < sCross ps ^ 2)

/-- The two-cell correlation-threshold step of each notebook
(`df_corr = df.corr().round(2)` followed by
`y_corr = df_corr[target][np.absolute(df_corr[target]) > t]`), returning
the index (list of labels) of the selected series.  `df.corr()` has the
numeric columns as its index, and indexing the matrix at `target` raises
`KeyError` when `target` is not one of them.  `t'` is the
rounding-adjusted threshold `t + 0.005` described at `corrExceeds`. -/
def corrSelect (df : DataFrame) (target : String) (t' : ℚ) : Except Err (List String) :=
  if target ∈ numericCols df then
    .ok ((numericCols df).filter (fun c =>
      corrExceeds (pairedVals ((df.getCol? c).getD []) ((df.getCol? target).getD [])) t'))
  else .error .keyError

/-- Centered sum of squares `Σ (qᵢ - q̄)²` of the values present in the
`target` column: zero exactly when the column has no two distinct present
values (the case where pandas' self-correlation is NaN instead of 1). -/
def selfS (df : DataFrame) (target : String) : ℚ :=
  let v := presentNums ((df.getCol? target).getD [])
  (v.map (fun q => (q - qmean v) ^ 2)).sum

/-- The feature-preparation block shared by all three notebooks
(in the main notebook with `target`/threshold 0.3, in the life-expectancy
notebook with `life_expectancy`/0.3, in the air-quality notebook with
`benzene`/0.5):

```
y_corr = df_corr[target][np.absolute(df_corr[target]) > t]
X = df[y_corr.index]
X = X.fillna(0)
X = X.drop(target, axis="columns")
```
-/
def featurePrep (df : DataFrame) (target : String) (t' : ℚ) : Except Err DataFrame := do
  let sel ← corrSelect df target t'
  let X ← df.select sel
  let X := X.fillna 0
  X.drop [target]

/-- `pd.read_csv(path)`: the input is `none` when the file is absent on
disk, in which case pandas raises `FileNotFoundError`; otherwise the parsed
table (parsing itself is the library's job, the notebooks receive typed
columns). -/
def read_csv (input : Option DataFrame) : Except Err DataFrame :=
  match input with
  | none => .error .fileNotFound
  | some df => .ok df

/-- The recode applied to one cell of the `status` column by
`[1 if d == "Developed" else 0 for d in df["status"]]`: `1` exactly on the
string `"Developed"`, `0` on every other value (other strings, numbers,
and missing values — `NaN == "Developed"` is false in Python). -/
def recodeCell (c : Cell) : Cell :=
  if c = .str "Developed" then .num 1 else .num 0

/-- The frame produced by the successful `status` recode: the `status`
column cell-wise recoded, all other columns untouched. -/
def recodedFrame (raw : DataFrame) : DataFrame :=
  ⟨raw.cols.map (fun c => if c.1 = "status" then (c.1, c.2.map recodeCell) else c)⟩

/-- `df["status"] = [1 if d == "Developed" else 0 for d in df["status"]]`:
reading `df["status"]` raises `KeyError` when the label is absent;
otherwise every cell of that column is recoded and all other columns are
untouched. -/
def recodeStatus (df : DataFrame) : Except Err DataFrame :=
  if "status" ∈ df.names then
    .ok ⟨df.cols.map (fun c =>
      if c.1 = "status" then (c.1, c.2.map recodeCell) else c)⟩
  else .error .keyError

/-- `df.reset_index()` on a default integer index: inserts the index as a
new first column named `index` holding `0, 1, 2, ...`; pandas raises
`ValueError` ("cannot insert ... already exists") when a column with that
name is already present. -/
def resetIndex (df : DataFrame) : Except Err DataFrame :=
  if "index" ∈ df.names then .error .valueError
  else
    let n := ((df.cols.headD ("", [])).2).length
    .ok ⟨("index", (List.range n).map (fun i => .num i)) :: df.cols⟩

/-- Conversion of a fully numeric column to its rational values: the
`ValueError` scikit-learn's input validation raises when a NaN (or a
non-numeric value) reaches a fit.  The notebooks' `X` matrices are built
from numeric columns and filled, so only the never-filled `y` of the main
notebook can fail here.  (scikit-learn raises at the fit call, after the
split; only the final outcome of the run is observable, so the embedding
surfaces the error at the conversion.) -/
def asNums (cs : List Cell) : Except Err (List ℚ) :=
  if cs.all (fun c => match c with | .num _ => true | _ => false) then
    .ok (presentNums cs)
  else .error .valueError

/-- Row-major view of a list of columns (all the notebooks' matrices are
rectangular; the `0` default is never reached on them). -/
def rowsFromCols (cols : List (List ℚ)) : List (List ℚ) :=
  (List.range (cols.headD []).length).map (fun i => cols.map (fun c => c.getD i 0))

/-- A dataframe of numeric columns as a row-major rational matrix, with
scikit-learn's NaN rejection (see `asNums`). -/
def asNumRows (df : DataFrame) : Except Err (List (List ℚ)) :=
  match df.cols.mapM (fun c => asNums c.2) with
  | .ok cols => .ok (rowsFromCols cols)
  | .error e => .error e

/-- The index shuffle of `train_test_split(..., random_state=seed)`.
The external library's shuffle is deterministic given the seed; the claims
under study depend only on that determinism and on the split being a
function of the data and the seed alone, so the concrete permutation is
modelled as a seed-indexed rotation of the row indices. -/
def shuffledIdx (seed n : Nat) : List Nat :=
  (List.range n).map (fun i => (i + seed) % n)

/-- Select the rows of `l` at positions `is`. -/
def pickRows {α : Type} (l : List α) (is : List Nat) : List α :=
  is.filterMap (fun i => l.get? i)

/-- The train/test split of a notebook run, bundling the four variables
`X_train, X_test, y_train, y_test`. -/
structure SplitData where
  xTrain : List (List ℚ)
  xTest : List (List ℚ)
  yTrain : List ℚ
  yTest : List ℚ
deriving DecidableEq

/-- `train_test_split(X, y, test_size=0.2, random_state=rs)`:
`ceil(0.2 * n)` rows become the test set, chosen by the seed-determined
shuffle; `random_state=None` would fall back to the ambient global RNG
state `amb`, but every notebook passes a literal seed, so `amb` is ignored
(that is the content of the determinism claim). -/
def train_test_split (X : List (List ℚ)) (y : List ℚ) (rs : Option Nat)
    (amb : Nat) : SplitData :=
  let n := X.length
  let nTest := (n + 4) / 5
  let idx := shuffledIdx (rs.getD amb) n
  { xTrain := pickRows X (idx.drop nTest)
    xTest := pickRows X (idx.take nTest)
    yTrain := pickRows y (idx.drop nTest)
    yTest := pickRows y (idx.take nTest) }

/-! ### The numeric stage (scikit-learn / statsmodels over the reals)

The libraries compute in floating point; the embedding uses exact real
arithmetic, hence the definitions below are noncomputable (real square
roots and real division have no executable representation).  No claim
needs to evaluate them: every claim touching this stage is an equality of
whole runs or of components, settled definitionally. -/

/-- Mean of a list of reals. -/
noncomputable def rmean (l : List ℝ) : ℝ := l.sum / l.length

/-- Column-major view of a row-major real matrix. -/
def colsOfRows (rows : List (List ℝ)) : List (List ℝ) :=
  (List.range (rows.headD []).length).map (fun j => rows.map (fun r => r.getD j 0))

/-- A rational matrix as a real matrix (the embedding of handing exact
decimal data to the floating-point libraries). -/
def ratRows (rows : List (List ℚ)) : List (List ℝ) :=
  rows.map (fun r => r.map (fun q => (q : ℝ)))

/-- `StandardScaler` per-column means (`sc.mean_`), learned by
`sc.fit_transform(X_train)` from the training matrix alone. -/
noncomputable def scalerMeans (rows : List (List ℚ)) : List ℝ :=
  (colsOfRows (ratRows rows)).map rmean

/-- `StandardScaler` per-column scales (`sc.scale_`): the population
standard deviation of the training column, with zero variance replaced by
1 as scikit-learn does to avoid dividing by zero. -/
noncomputable def scalerScales (rows : List (List ℚ)) : List ℝ :=
  (colsOfRows (ratRows rows)).map (fun c =>
    let v := rmean (c.map (fun x => (x - rmean c) ^ 2))
    if v = 0 then 1 else Real.sqrt v)

/-- `sc.transform`: center by the learned means and divide by the learned
scales, column by column. -/
noncomputable def scalerTransform (means scales : List ℝ) (rows : List (List ℚ)) :
    List (List ℝ) :=
  (ratRows rows).map (fun r =>
    List.zipWith (fun x p => (x - p.1) / p.2) r (means.zip scales))

/-- Dot product of two real vectors. -/
def rdot (a b : List ℝ) : ℝ := (List.zipWith (· * ·) a b).sum

/-- Remove the entry at position `j`. -/
def dropAt {α : Type} (j : Nat) (l : List α) : List α :=
  l.take j ++ l.drop (j + 1)

/-- Determinant of a row-major square matrix by first-row Laplace
expansion; the fuel argument is the row count, consumed one row per
expansion step. -/
def detFuel {α : Type} [CommRing α] : Nat → List (List α) → α
  | _, [] => 1
  | 0, _ :: _ => 0
  | n + 1, r :: rs =>
    ((List.range r.length).map (fun j =>
      (-1 : α) ^ j * r.getD j 0 * detFuel n (rs.map (dropAt j)))).sum

/-- Determinant of a row-major square matrix. -/
def detM {α : Type} [CommRing α] (m : List (List α)) : α := detFuel m.length m

/-- Solve the square linear system `A x = b` by Cramer's rule (real
division by a zero determinant yields 0; the libraries' least-squares
solvers agree with this solution whenever the system is nonsingular,
which is the case the notebooks exercise). -/
noncomputable def cramerSolve (A : List (List ℝ)) (b : List ℝ) : List ℝ :=
  let d := detM A
  (List.range A.length).map (fun j =>
    detM (List.zipWith (fun row bi => row.set j bi) A b) / d)

/-- Ordinary least squares on a design matrix already containing any
constant column: the solution of the normal equations `XᵀX β = Xᵀ y`.
This is `sm.OLS(y, x).fit().params` (statsmodels' pseudo-inverse equals
the normal-equations solution in the full-rank case). -/
noncomputable def olsFit (X : List (List ℝ)) (y : List ℝ) : List ℝ :=
  let Xt := colsOfRows X
  cramerSolve (Xt.map (fun ci => Xt.map (fun cj => rdot ci cj))) (Xt.map (fun ci => rdot ci y))

/-- `sm.add_constant`: prepend a constant-1 column. -/
def addConst (X : List (List ℝ)) : List (List ℝ) := X.map (fun r => 1 :: r)

/-- `LinearRegression().fit(X, y)` (fit_intercept defaults to true): the
intercept followed by the coefficients, i.e. OLS on the
constant-augmented design. -/
noncomputable def lrFit (X : List (List ℝ)) (y : List ℝ) : List ℝ :=
  olsFit (addConst X) y

/-- `lr.predict(X)`: intercept plus dot product with the coefficients. -/
noncomputable def lrPredict (beta : List ℝ) (X : List (List ℝ)) : List ℝ :=
  (addConst X).map (fun r => rdot beta r)

/-- `sklearn.metrics.r2_score(y_true, y_pred) = 1 - SS_res / SS_tot`. -/
noncomputable def r2_score (yTrue yPred : List ℝ) : ℝ :=
  1 - (List.zipWith (fun a b => (a - b) ^ 2) yTrue yPred).sum
        / (yTrue.map (fun a => (a - rmean yTrue) ^ 2)).sum

/-- `sklearn.metrics.mean_squared_error`. -/
noncomputable def mean_squared_error (yTrue yPred : List ℝ) : ℝ :=
  ((List.zipWith (fun a b => (a - b) ^ 2) yTrue yPred).sum) / yTrue.length

/-- The two-decimal rounding the notebooks apply before printing a metric
(`.round(2)`; numpy rounds half to even, which differs from `round` only
at exact half-hundredths, immaterial to the claims). -/
noncomputable def round2 (x : ℝ) : ℝ := (round (100 * x) : ℤ) / 100

/-- Everything the post-split cells of a notebook compute: scaler
parameters, scaled matrices, the scikit-learn fit and its predictions and
r² scores, and the statsmodels OLS coefficients (the numeric core of the
printed `results.summary()`; the summary's further statistics are
functions of the same fit). -/
structure ModelResult where
  scMean : List ℝ
  scScale : List ℝ
  xTrainS : List (List ℝ)
  xTestS : List (List ℝ)
  coefs : List ℝ
  preds : List ℝ
  trainR2 : ℝ
  testR2 : ℝ
  olsCoefs : List ℝ

/-- The post-split cells shared by all three notebooks:

```
sc = StandardScaler()
X_train = sc.fit_transform(X_train)
X_test = sc.transform(X_test)
lr = LinearRegression()
lr.fit(X_train, y_train)
y_preds = lr.predict(X_test)
... lr.score(X_train, y_train) ... r2_score(y_test, y_preds) ...
x_train = sm.add_constant(X_train)
results = sm.OLS(y_train, x_train).fit()
```

The scaler is fit on `X_train` alone and only `transform` is applied to
`X_test`; the regression is fit on the scaled training data alone. -/
noncomputable def modelStage (s : SplitData) : ModelResult :=
  let m := scalerMeans s.xTrain
  let sc := scalerScales s.xTrain
  let xtr := scalerTransform m sc s.xTrain
  let xte := scalerTransform m sc s.xTest
  let beta := lrFit xtr s.yTrain
  let preds := lrPredict beta xte
  { scMean := m
    scScale := sc
    xTrainS := xtr
    xTestS := xte
    coefs := beta
    preds := preds
    trainR2 := r2_score (s.yTrain.map (fun q => (q : ℝ))) (lrPredict beta xtr)
    testR2 := r2_score (s.yTest.map (fun q => (q : ℝ))) preds
    olsCoefs := olsFit (addConst xtr) (s.yTrain.map (fun q => (q : ℝ))) }

/-- The observable output of a full run of the main notebook
(`evaluating_stakeholder_needs.ipynb`): the split, the fitted stage, the
three printed metric values (train r², test r², test MSE, each rounded to
two decimals), and the refit block's split and OLS coefficients. -/
structure MainOut where
  split : SplitData
  stage : ModelResult
  printedTrainR2 : ℝ
  printedTestR2 : ℝ
  printedMse : ℝ
  split2 : SplitData
  olsCoefs2 : List ℝ

/-- The observable output of a full run of an exercise notebook: the split,
the fitted stage, and the two printed r² values. -/
structure ExOut where
  split : SplitData
  stage : ModelResult
  printedTrainR2 : ℝ
  printedTestR2 : ℝ

/-- A complete run of `evaluating_stakeholder_needs.ipynb` on the loaded
diabetes frame `df` (the bundled dataset needs no file read), cell by cell:

correlation matrix and threshold 0.3, feature selection, `fillna(0)`,
drop of `target`, split with `random_state=5`, scaling, linear-regression
fit, printed metrics, statsmodels OLS; then the refit block with
threshold 0.2, drop of `target, s4, s6`, the same seed, and a second OLS.

`amb` is the ambient global RNG state that `train_test_split` would use if
the notebook did not pass `random_state` (it does, so `amb` is unused). -/
noncomputable def runMain (df : DataFrame) (amb : Nat) : Except Err MainOut := do
  let X ← featurePrep df "target" (305 / 1000)
  let y ← df.getColE "target"
  let yq ← asNums y
  let xrows ← asNumRows X
  let s := train_test_split xrows yq (some 5) amb
  let st := modelStage s
  let mse := mean_squared_error (s.yTest.map (fun q => (q : ℝ))) st.preds
  let sel2 ← corrSelect df "target" (205 / 1000)
  let X2 ← df.select sel2
  let X2 := X2.fillna 0
  let X2 ← X2.drop ["target", "s4", "s6"]
  let xrows2 ← asNumRows X2
  let s2 := train_test_split xrows2 yq (some 5) amb
  let st2 := modelStage s2
  return { split := s
           stage := st
           printedTrainR2 := round2 st.trainR2
           printedTestR2 := round2 st.testR2
           printedMse := round2 mse
           split2 := s2
           olsCoefs2 := st2.olsCoefs }

/-- The load-and-clean cell of `exercises_life_expectancy.ipynb`:

```
df = pd.read_csv("life_expectancy.csv")
df["status"] = [1 if d == "Developed" else 0 for d in df["status"]]
df = df.fillna(0)
df = df.reset_index()
```
-/
def leLoadClean (input : Option DataFrame) : Except Err DataFrame := do
  let df ← read_csv input
  let df ← recodeStatus df
  let df := df.fillna 0
  resetIndex df

/-- A complete run of `exercises_life_expectancy.ipynb`: load and clean,
correlation threshold 0.3 against `life_expectancy`, feature selection and
drop, split with `random_state=9`, scaling, fit, printed r² values,
statsmodels OLS. -/
noncomputable def runLE (input : Option DataFrame) (amb : Nat) : Except Err ExOut := do
  let df ← leLoadClean input
  let X ← featurePrep df "life_expectancy" (305 / 1000)
  let y ← df.getColE "life_expectancy"
  let yq ← asNums y
  let xrows ← asNumRows X
  let s := train_test_split xrows yq (some 9) amb
  let st := modelStage s
  return { split := s
           stage := st
           printedTrainR2 := round2 st.trainR2
           printedTestR2 := round2 st.testR2 }

/-- The load-and-clean cell of `exercises_air_quality.ipynb`:
`df = pd.read_csv("air_quality.csv")` then `df = df.fillna(0)`. -/
def aqLoadClean (input : Option DataFrame) : Except Err DataFrame := do
  let df ← read_csv input
  return df.fillna 0

/-- A complete run of `exercises_air_quality.ipynb`: load and fill,
correlation threshold 0.5 against `benzene`, feature selection and drop,
split with `random_state=9`, scaling, fit, printed r² values,
statsmodels OLS. -/
noncomputable def runAQ (input : Option DataFrame) (amb : Nat) : Except Err ExOut := do
  let df ← aqLoadClean input
  let X ← featurePrep df "benzene" (505 / 1000)
  let y ← df.getColE "benzene"
  let yq ← asNums y
  let xrows ← asNumRows X
  let s := train_test_split xrows yq (some 9) amb
  let st := modelStage s
  return { split := s
           stage := st
           printedTrainR2 := round2 st.trainR2
           printedTestR2 := round2 st.testR2 }

/-! ### Structural model: the notebooks as ordered lists of operations

Each notebook is modelled as the ordered list of the operations its code
cells perform, each operation carrying the kernel variables it reads and
writes.  The `imputeMean`, `dropMissingRows` and `writeCsv` operations
exist in the vocabulary but occur in no notebook: the claims that the
notebooks perform no other imputation and write no files are statements
about their absence. -/

/-- The kinds of operation appearing in (or absent from) the notebooks. -/
inductive Op where
  | importLibs
  | loadCsv (path : String)
  | loadSk
  | recode
  | fillMissing (v : ℚ)
  | resetIdx
  | showInfo
  | showValue
  | corrMatrix
  | threshold (t : ℚ)
  | pairplot
  | regplot
  | selectCols
  | dropCols
  | getY
  | splitTT (seed : Nat)
  | scaleData
  | fitModel
  | predictOp
  | printMetrics
  | addConstant
  | olsModel
  | printSummary
  | imputeMean
  | dropMissingRows
  | writeCsv (path : String)
deriving DecidableEq

/-- One operation of a notebook together with the kernel variables it
reads and the ones it (re)binds. -/
structure CellOp where
  op : Op
  reads : List String
  writes : List String

/-- Shorthand constructor for `CellOp`. -/
def cop (o : Op) (r w : List String) : CellOp := ⟨o, r, w⟩

/-- The external effects of an operation: reading the input data from
disk, printing, plotting, or writing a file. -/
inductive Eff where
  | readFile (path : String)
  | loadBundled
  | printOut
  | plotOut
  | writeFile (path : String)
deriving DecidableEq

/-- Effects performed by each operation kind. -/
def effectsOf : Op → List Eff
  | .loadCsv p => [.readFile p]
  | .loadSk => [.loadBundled]
  | .showInfo => [.printOut]
  | .showValue => [.printOut]
  | .printMetrics => [.printOut]
  | .printSummary => [.printOut]
  | .pairplot => [.plotOut]
  | .regplot => [.plotOut]
  | .writeCsv p => [.writeFile p]
  | _ => []

/-- The effect trace of a notebook: its operations' effects in order. -/
def traceOf (l : List CellOp) : List Eff :=
  (l.map (fun c => effectsOf c.op)).flatten

/-- An effect that reads input data (a CSV read or the bundled loader). -/
def isInputRead : Eff → Bool
  | .readFile _ => true
  | .loadBundled => true
  | _ => false

/-- An effect that writes an external file. -/
def isWriteEff : Eff → Bool
  | .writeFile _ => true
  | _ => false

/-- The operations of `evaluating_stakeholder_needs.ipynb`, in source
order, with their variable reads and writes. -/
def mainOps : List CellOp := [
  cop .importLibs [] ["np", "pd", "sns", "datasets"],
  cop .loadSk ["datasets"] ["db", "df"],
  cop .showValue ["db"] [],
  cop .corrMatrix ["df"] ["df_corr"],
  cop .showValue ["df_corr"] [],
  cop (.threshold (3 / 10)) ["df_corr", "np"] ["target_corr"],
  cop .showValue ["target_corr"] [],
  cop .pairplot ["sns", "df", "target_corr"] [],
  cop .importLibs [] ["train_test_split", "StandardScaler", "LinearRegression",
                      "r2_score", "mean_squared_error"],
  cop .selectCols ["df", "target_corr"] ["X"],
  cop (.fillMissing 0) ["X"] ["X"],
  cop .dropCols ["X"] ["X"],
  cop .getY ["df"] ["y"],
  cop (.splitTT 5) ["train_test_split", "X", "y"]
      ["X_train", "X_test", "y_train", "y_test"],
  cop .scaleData ["StandardScaler", "X_train", "X_test"] ["sc", "X_train", "X_test"],
  cop .fitModel ["LinearRegression", "X_train", "y_train"] ["lr"],
  cop .predictOp ["lr", "X_test"] ["y_preds"],
  cop .printMetrics ["lr", "X_train", "y_train", "y_test", "y_preds",
                     "r2_score", "mean_squared_error"] [],
  cop .importLibs [] ["sm"],
  cop .addConstant ["sm", "X_train"] ["x_train"],
  cop .olsModel ["sm", "y_train", "x_train"] ["model", "results"],
  cop .printSummary ["results", "X"] [],
  cop (.threshold (2 / 10)) ["df_corr", "np"] ["target_corr"],
  cop .selectCols ["df", "target_corr"] ["X"],
  cop (.fillMissing 0) ["X"] ["X"],
  cop .dropCols ["X"] ["X"],
  cop (.splitTT 5) ["train_test_split", "X", "y"]
      ["X_train", "X_test", "y_train", "y_test"],
  cop .scaleData ["StandardScaler", "X_train", "X_test"] ["sc", "X_train", "X_test"],
  cop .addConstant ["sm", "X_train"] ["x_train"],
  cop .olsModel ["sm", "y_train", "x_train"] ["model", "results"],
  cop .printSummary ["results", "X"] [],
  cop .regplot ["sns", "df"] []
]

/-- The operations of `exercises_life_expectancy.ipynb`, in source order. -/
def leOps : List CellOp := [
  cop .importLibs [] ["np", "pd", "sns"],
  cop (.loadCsv "life_expectancy.csv") ["pd"] ["df"],
  cop .recode ["df"] ["df"],
  cop (.fillMissing 0) ["df"] ["df"],
  cop .resetIdx ["df"] ["df"],
  cop .showInfo ["df"] [],
  cop .corrMatrix ["df"] ["df_corr"],
  cop (.threshold (3 / 10)) ["df_corr", "np"] ["y_corr"],
  cop .showValue ["y_corr"] [],
  cop .pairplot ["sns", "df", "y_corr"] [],
  cop .importLibs [] ["train_test_split", "StandardScaler", "LinearRegression", "r2_score"],
  cop .selectCols ["df", "y_corr"] ["X"],
  cop (.fillMissing 0) ["X"] ["X"],
  cop .dropCols ["X"] ["X"],
  cop .getY ["df"] ["y"],
  cop (.splitTT 9) ["train_test_split", "X", "y"]
      ["X_train", "X_test", "y_train", "y_test"],
  cop .scaleData ["StandardScaler", "X_train", "X_test"] ["sc", "X_train", "X_test"],
  cop .fitModel ["LinearRegression", "X_train", "y_train"] ["lr"],
  cop .predictOp ["lr", "X_test"] ["y_preds"],
  cop .printMetrics ["lr", "X_train", "y_train", "y_test", "y_preds", "r2_score"] [],
  cop .importLibs [] ["sm"],
  cop .addConstant ["sm", "X_train"] ["x_train"],
  cop .olsModel ["sm", "y_train", "x_train"] ["model", "results"],
  cop .printSummary ["results", "X"] []
]

/-- The operations of `exercises_air_quality.ipynb`, in source order. -/
def aqOps : List CellOp := [
  cop .importLibs [] ["np", "pd", "sns"],
  cop (.loadCsv "air_quality.csv") ["pd"] ["df"],
  cop (.fillMissing 0) ["df"] ["df"],
  cop .showInfo ["df"] [],
  cop .corrMatrix ["df"] ["df_corr"],
  cop .showValue ["df_corr"] [],
  cop (.threshold (5 / 10)) ["df_corr", "np"] ["y_corr"],
  cop .showValue ["y_corr"] [],
  cop .pairplot ["sns", "df", "y_corr"] [],
  cop .importLibs [] ["train_test_split", "StandardScaler", "LinearRegression", "r2_score"],
  cop .selectCols ["df", "y_corr"] ["X"],
  cop (.fillMissing 0) ["X"] ["X"],
  cop .dropCols ["X"] ["X"],
  cop .getY ["df"] ["y"],
  cop (.splitTT 9) ["train_test_split", "X", "y"]
      ["X_train", "X_test", "y_train", "y_test"],
  cop .scaleData ["StandardScaler", "X_train", "X_test"] ["sc", "X_train", "X_test"],
  cop .fitModel ["LinearRegression", "X_train", "y_train"] ["lr"],
  cop .predictOp ["lr", "X_test"] ["y_preds"],
  cop .printMetrics ["lr", "X_train", "y_train", "y_test", "y_preds", "r2_score"] [],
  cop .importLibs [] ["sm"],
  cop .addConstant ["sm", "X_train"] ["x_train"],
  cop .olsModel ["sm", "y_train", "x_train"] ["model", "results"],
  cop .printSummary ["results", "X"] []
]

/-- Operation-kind predicates for ordering checks. -/
def isFillOp : Op → Bool
  | .fillMissing _ => true
  | _ => false

/-- Correlation-matrix operation. -/
def isCorrOp : Op → Bool
  | .corrMatrix => true
  | _ => false

/-- Data-loading operation (CSV read or bundled loader). -/
def isLoadOp : Op → Bool
  | .loadCsv _ => true
  | .loadSk => true
  | _ => false

/-- Train/test split operation. -/
def isSplitOp : Op → Bool
  | .splitTT _ => true
  | _ => false

/-- Standardization operation. -/
def isScaleOp : Op → Bool
  | .scaleData => true
  | _ => false

/-- Model-fit operation. -/
def isFitOp : Op → Bool
  | .fitModel => true
  | _ => false

/-- Metric-printing operation. -/
def isMetricsOp : Op → Bool
  | .printMetrics => true
  | _ => false

/-- Recode operation of the life-expectancy notebook. -/
def isRecodeOp : Op → Bool
  | .recode => true
  | _ => false

/-- Position of the first operation satisfying `p`. -/
def opIdx (p : Op → Bool) (l : List CellOp) : Option Nat :=
  l.findIdx? (fun c => p c.op)

/-- The first `p`-operation occurs, and strictly before the first
`q`-operation. -/
def firstPrecedes (p q : Op → Bool) (l : List CellOp) : Bool :=
  match opIdx p l, opIdx q l with
  | some i, some j => decide (i < j)
  | _, _ => false

/-- All the listed positions exist and are strictly increasing. -/
def ascendingIdx : List (Option Nat) → Bool
  | [] => true
  | [o] => o.isSome
  | a :: b :: t =>
    (match a, b with
     | some i, some j => decide (i < j)
     | _, _ => false) && ascendingIdx (b :: t)

/-- The phase order asserted by the spec: load, then clean (fill), then
correlate, then split, then scale, then fit, then print metrics. -/
def claimedPhaseOrder (l : List CellOp) : Bool :=
  ascendingIdx [opIdx isLoadOp l, opIdx isFillOp l, opIdx isCorrOp l,
                opIdx isSplitOp l, opIdx isScaleOp l, opIdx isFitOp l,
                opIdx isMetricsOp l]

/-- The phase order the main notebook actually follows: the correlation
matrix is computed on the raw frame, before any missing-value fill. -/
def mainPhaseOrder (l : List CellOp) : Bool :=
  ascendingIdx [opIdx isLoadOp l, opIdx isCorrOp l, opIdx isFillOp l,
                opIdx isSplitOp l, opIdx isScaleOp l, opIdx isFitOp l,
                opIdx isMetricsOp l]

/-- Every operation reads only variables written by an earlier operation:
no cell's result depends on a variable produced by a later cell. -/
def depsOk : List String → List CellOp → Bool
  | _, [] => true
  | env, c :: rest => c.reads.all (fun v => env.contains v) && depsOk (env ++ c.writes) rest

/-- Forward-only dependence, starting from an empty kernel. -/
def noForwardDep (l : List CellOp) : Bool := depsOk [] l

/-- The only missing-value treatment anywhere in a notebook is the
unconditional constant fill with 0: every fill operation uses the constant
0 and no mean-imputation or row-dropping operation occurs. -/
def onlyZeroFill (l : List CellOp) : Bool :=
  l.all (fun c => match c.op with
    | .fillMissing v => decide (v = 0)
    | .imputeMean => false
    | .dropMissingRows => false
    | _ => true)

/-! ### Spec-side pipelines for the refinement claim

The spec asserts that every computational step of every notebook is a
single direct invocation of the corresponding external library function on
its inputs, with no wrapping logic, retry behavior, or custom numeric
implementation.  The following definitions render each notebook as that
bare chain of library invocations (each step one application of one of the
library models above, results passed straight to the next step), to be
compared with the cell-by-cell runs. -/

/-- The main notebook as a bare chain of single library invocations. -/
noncomputable def mainAsLibCalls (df : DataFrame) (amb : Nat) : Except Err MainOut :=
  Except.bind (featurePrep df "target" (305 / 1000)) (fun X =>
  Except.bind (df.getColE "target") (fun y =>
  Except.bind (asNums y) (fun yq =>
  Except.bind (asNumRows X) (fun xrows =>
  let s := train_test_split xrows yq (some 5) amb
  let st := modelStage s
  Except.bind (corrSelect df "target" (205 / 1000)) (fun sel2 =>
  Except.bind (df.select sel2) (fun X2 =>
  Except.bind ((X2.fillna 0).drop ["target", "s4", "s6"]) (fun X2' =>
  Except.bind (asNumRows X2') (fun xrows2 =>
  let s2 := train_test_split xrows2 yq (some 5) amb
  Except.ok
    { split := s
      stage := st
      printedTrainR2 := round2 st.trainR2
      printedTestR2 := round2 st.testR2
      printedMse := round2 (mean_squared_error (s.yTest.map (fun q => (q : ℝ))) st.preds)
      split2 := s2
      olsCoefs2 := (modelStage s2).olsCoefs }))))))))

/-- The life-expectancy notebook as a bare chain of single library
invocations. -/
noncomputable def leAsLibCalls (input : Option DataFrame) (amb : Nat) : Except Err ExOut :=
  Except.bind (read_csv input) (fun df0 =>
  Except.bind (recodeStatus df0) (fun df1 =>
  Except.bind (resetIndex (df1.fillna 0)) (fun df =>
  Except.bind (featurePrep df "life_expectancy" (305 / 1000)) (fun X =>
  Except.bind (df.getColE "life_expectancy") (fun y =>
  Except.bind (asNums y) (fun yq =>
  Except.bind (asNumRows X) (fun xrows =>
  let s := train_test_split xrows yq (some 9) amb
  let st := modelStage s
  Except.ok
    { split := s
      stage := st
      printedTrainR2 := round2 st.trainR2
      printedTestR2 := round2 st.testR2 })))))))

/-- The air-quality notebook as a bare chain of single library
invocations. -/
noncomputable def aqAsLibCalls (input : Option DataFrame) (amb : Nat) : Except Err ExOut :=
  Except.bind (read_csv input) (fun df0 =>
  let df := df0.fillna 0
  Except.bind (featurePrep df "benzene" (505 / 1000)) (fun X =>
  Except.bind (df.getColE "benzene") (fun y =>
  Except.bind (asNums y) (fun yq =>
  Except.bind (asNumRows X) (fun xrows =>
  let s := train_test_split xrows yq (some 9) amb
  let st := modelStage s
  Except.ok
    { split := s
      stage := st
      printedTrainR2 := round2 st.trainR2
      printedTestR2 := round2 st.testR2 })))))

/-- The do-notation bind on `Except Err` is `Except.bind`. -/
theorem monad_bind_eq_except_bind {α β : Type} (m : Except Err α) (f : α → Except Err β) :
    m >>= f = Except.bind m f := rfl

/-- Associativity of `Except.bind`, used to compare the cell-by-cell runs
with the flat library-call chains. -/
theorem except_bind_assoc {α β γ : Type} (m : Except Err α) (f : α → Except Err β)
    (g : β → Except Err γ) :
    Except.bind (Except.bind m f) g = Except.bind m (fun x => Except.bind (f x) g) := by
  cases m <;> rfl

/-- Binding a success just applies the continuation. -/
theorem except_bind_ok {α β : Type} (x : α) (f : α → Except Err β) :
    Except.bind (Except.ok x) f = f x := rfl

/-- Binding a failure propagates it unchanged: no continuation runs. -/
theorem except_bind_error {α β : Type} (e : Err) (f : α → Except Err β) :
    Except.bind (Except.error e) f = Except.error e := rfl

/-- The do-notation `pure`/`return` on `Except Err` is `Except.ok`. -/
theorem monad_pure_eq_except_ok {α : Type} (x : α) :
    (pure x : Except Err α) = Except.ok x := rfl

/-! ### The claims -/

/-- Claim C1: for every fixed input dataset, running a notebook's cells in
order is deterministic: any two complete executions produce identical
train/test splits and identical printed metric values, because every call
to `train_test_split` fixes the random seed (`random_state=5` in the main
notebook, `random_state=9` in both exercise notebooks).  The ambient RNG
states `a` and `b` of the two executions — the only source of
nondeterminism `train_test_split` could consult — do not influence the
result. -/
theorem c1_determinism :
    (∀ (df : DataFrame) (a b : Nat), runMain df a = runMain df b) ∧
    (∀ (input : Option DataFrame) (a b : Nat), runLE input a = runLE input b) ∧
    (∀ (input : Option DataFrame) (a b : Nat), runAQ input a = runAQ input b) :=
  ⟨fun _ _ _ => rfl, fun _ _ _ => rfl, fun _ _ _ => rfl⟩

/-- Claim C9: the standardization parameters and the fitted model depend
only on the training split.  For any two runs of the post-split stage
whose training data agree but whose test data differ arbitrarily, the
scaler's learned parameters, the transformed training matrix, the fitted
regression coefficients and the statsmodels OLS coefficients coincide;
moreover the test matrix is only transformed with the parameters learned
from the training matrix, never refit. -/
theorem c9_train_only_dependence :
    ∀ (xtr xte xte' : List (List ℚ)) (ytr yte yte' : List ℚ),
      (modelStage ⟨xtr, xte, ytr, yte⟩).scMean = (modelStage ⟨xtr, xte', ytr, yte'⟩).scMean ∧
      (modelStage ⟨xtr, xte, ytr, yte⟩).scScale = (modelStage ⟨xtr, xte', ytr, yte'⟩).scScale ∧
      (modelStage ⟨xtr, xte, ytr, yte⟩).xTrainS = (modelStage ⟨xtr, xte', ytr, yte'⟩).xTrainS ∧
      (modelStage ⟨xtr, xte, ytr, yte⟩).coefs = (modelStage ⟨xtr, xte', ytr, yte'⟩).coefs ∧
      (modelStage ⟨xtr, xte, ytr, yte⟩).olsCoefs = (modelStage ⟨xtr, xte', ytr, yte'⟩).olsCoefs ∧
      (modelStage ⟨xtr, xte, ytr, yte⟩).xTestS =
        scalerTransform (scalerMeans xtr) (scalerScales xtr) xte :=
  fun _ _ _ _ _ _ => ⟨rfl, rfl, rfl, rfl, rfl, rfl⟩

/-- Claim C4: every computational step of every notebook is extensionally
equal to a single direct invocation of the corresponding external library
function on its inputs: the cell-by-cell runs coincide with the bare
chains of library calls, with no added wrapping logic, retry behavior, or
custom numeric implementation. -/
theorem c4_direct_library_calls :
    (∀ (df : DataFrame) (amb : Nat), runMain df amb = mainAsLibCalls df amb) ∧
    (∀ (input : Option DataFrame) (amb : Nat), runLE input amb = leAsLibCalls input amb) ∧
    (∀ (input : Option DataFrame) (amb : Nat), runAQ input amb = aqAsLibCalls input amb) := by
  refine ⟨fun _ _ => rfl, fun input amb => ?_, fun input amb => ?_⟩
  · simp only [runLE, leAsLibCalls, leLoadClean, monad_bind_eq_except_bind,
      monad_pure_eq_except_ok, except_bind_assoc, except_bind_ok]
  · simp only [runAQ, aqAsLibCalls, aqLoadClean, monad_bind_eq_except_bind,
      monad_pure_eq_except_ok, except_bind_assoc, except_bind_ok]

/-- Column lookup commutes with `fillna`: the filled frame holds, column
for column, exactly the cell-wise filled contents of the original. -/
theorem getCol_fillna (df : DataFrame) (v : ℚ) (name : String) :
    (df.fillna v).getCol? name = (df.getCol? name).map (fun cs => cs.map (fillCell v)) := by
  rcases df with ⟨cols⟩
  induction cols with
  | nil => rfl
  | cons c rest ih =>
    by_cases h : c.1 = name
    · simp [DataFrame.fillna, DataFrame.getCol?, List.find?_cons_of_pos, h]
    · have h1 : (⟨rest⟩ : DataFrame).fillna v = ⟨rest.map (fun c => (c.1, c.2.map (fillCell v)))⟩ := rfl
      simp only [DataFrame.fillna, DataFrame.getCol?, List.map_cons] at ih ⊢
      rw [List.find?_cons_of_neg, List.find?_cons_of_neg]
      · exact ih
      · simpa using h
      · simpa using h

/-- Claim C2: in every notebook, missing values in the data used for model
fitting are unconditionally replaced with the constant 0: `fillna`
substitutes the constant for every missing cell of every column and row of
the table it is applied to and leaves every present value unchanged; every
fill operation of every notebook uses the constant 0, no mean-imputation
or row-dropping operation occurs anywhere, and the fill precedes the
train/test split (hence the fit) in every notebook. -/
theorem c2_fill_constant :
    (∀ (df : DataFrame) (v : ℚ) (name : String),
      (df.fillna v).getCol? name = (df.getCol? name).map (fun cs => cs.map (fillCell v))) ∧
    (∀ v : ℚ, fillCell v .na = .num v) ∧
    (∀ (v q : ℚ), fillCell v (.num q) = .num q) ∧
    (∀ (v : ℚ) (s : String), fillCell v (.str s) = .str s) ∧
    onlyZeroFill mainOps = true ∧ onlyZeroFill leOps = true ∧ onlyZeroFill aqOps = true ∧
    firstPrecedes isFillOp isSplitOp mainOps = true ∧
    firstPrecedes isFillOp isSplitOp leOps = true ∧
    firstPrecedes isFillOp isSplitOp aqOps = true :=
  ⟨getCol_fillna, fun _ => rfl, fun _ _ => rfl, fun _ _ => rfl,
   by decide, by decide, by decide, by decide, by decide, by decide⟩

/-- Counterexample to claim C3: in the main notebook the cleaning step
does not precede the correlation step — the correlation matrix
(`df_corr = df.corr()`, operation index 3) is computed on the raw frame,
and the first `fillna` (operation index 10) only appears afterwards, in
the feature-matrix cell. -/
theorem c3_counterexample :
    firstPrecedes isFillOp isCorrOp mainOps = false ∧
    opIdx isCorrOp mainOps = some 3 ∧ opIdx isFillOp mainOps = some 10 := by
  refine ⟨by decide, by decide, by decide⟩

/-- Claim C3 as amended: each notebook is a linear script whose operations
read only variables written earlier (no result depends on a later cell).
Both exercise notebooks follow load → clean → correlate → split → scale →
fit → print metrics, so cleaning precedes correlation there; the main
notebook instead computes the correlation matrix on the raw frame and
cleans only the selected feature matrix afterwards, following load →
correlate → clean → split → scale → fit → print metrics (→ refit). -/
theorem c3_amended :
    claimedPhaseOrder leOps = true ∧
    claimedPhaseOrder aqOps = true ∧
    firstPrecedes isFillOp isCorrOp leOps = true ∧
    firstPrecedes isFillOp isCorrOp aqOps = true ∧
    mainPhaseOrder mainOps = true ∧
    firstPrecedes isCorrOp isFillOp mainOps = true ∧
    noForwardDep mainOps = true ∧
    noForwardDep leOps = true ∧
    noForwardDep aqOps = true := by
  refine ⟨by decide, by decide, by decide, by decide, by decide, by decide,
    by decide, by decide, by decide⟩

/-- Claim C7: each notebook's only external effects are one read of input
data at notebook start — the single CSV read in each exercise notebook,
the bundled scikit-learn loader in the main notebook — and printed
summaries and plots; the input read is the very first effect, it is the
only input read of the whole trace, and no notebook ever writes a file. -/
theorem c7_effects :
    (traceOf mainOps).filter isInputRead = [.loadBundled] ∧
    (traceOf mainOps).head? = some .loadBundled ∧
    (traceOf leOps).filter isInputRead = [.readFile "life_expectancy.csv"] ∧
    (traceOf leOps).head? = some (.readFile "life_expectancy.csv") ∧
    (traceOf aqOps).filter isInputRead = [.readFile "air_quality.csv"] ∧
    (traceOf aqOps).head? = some (.readFile "air_quality.csv") ∧
    (traceOf mainOps).filter isWriteEff = [] ∧
    (traceOf leOps).filter isWriteEff = [] ∧
    (traceOf aqOps).filter isWriteEff = [] ∧
    ((traceOf mainOps).drop 1).all (fun e => e = .printOut || e = .plotOut) = true ∧
    ((traceOf leOps).drop 1).all (fun e => e = .printOut || e = .plotOut) = true ∧
    ((traceOf aqOps).drop 1).all (fun e => e = .printOut || e = .plotOut) = true := by
  refine ⟨by decide, by decide, by decide, by decide, by decide, by decide,
    by decide, by decide, by decide, by decide, by decide, by decide⟩

/-- Filling missing values never changes whether a column is numeric:
strings are left in place and replaced values are numbers. -/
theorem isNumericCol_fillna (v : ℚ) (cs : List Cell) :
    isNumericCol (cs.map (fillCell v)) = isNumericCol cs := by
  unfold isNumericCol
  rw [List.all_map]
  congr 1
  funext c
  cases c <;> rfl

/-- Auxiliary form of `numericCols_fillna` on raw column lists. -/
theorem numericCols_fillna_aux (v : ℚ) (cols : List (String × List Cell)) :
    ((cols.map (fun c => (c.1, c.2.map (fillCell v)))).filter
        (fun c => isNumericCol c.2)).map Prod.fst
      = (cols.filter (fun c => isNumericCol c.2)).map Prod.fst := by
  induction cols with
  | nil => rfl
  | cons c rest ih =>
    simp only [List.map_cons, List.filter_cons, isNumericCol_fillna]
    cases h : isNumericCol c.2
    · simpa [h] using ih
    · simpa [h] using ih

/-- `fillna` does not change the set of numeric columns pandas `corr`
works over. -/
theorem numericCols_fillna (df : DataFrame) (v : ℚ) :
    numericCols (df.fillna v) = numericCols df := by
  rcases df with ⟨cols⟩
  exact numericCols_fillna_aux v cols

/-- Claim C5: any failure of a step propagates unhandled to the top level
and stops the notebook, with no cell catching an error, retrying, or
producing an alternative result: a missing CSV file stops both exercise
notebooks with `FileNotFoundError` at the load, a frame without the
`status` column stops the life-expectancy notebook with `KeyError` at the
recode, a frame without a numeric `benzene` (resp. `target`) column stops
the air-quality (resp. main) notebook with `KeyError` at the correlation
threshold, and in each case the whole run's result is exactly that
error. -/
theorem c5_error_propagation :
    (∀ amb : Nat, runLE none amb = .error .fileNotFound) ∧
    (∀ amb : Nat, runAQ none amb = .error .fileNotFound) ∧
    (∀ (raw : DataFrame) (amb : Nat), "status" ∉ raw.names →
      runLE (some raw) amb = .error .keyError) ∧
    (∀ (raw : DataFrame) (amb : Nat), "benzene" ∉ numericCols raw →
      runAQ (some raw) amb = .error .keyError) ∧
    (∀ (df : DataFrame) (amb : Nat), "target" ∉ numericCols df →
      runMain df amb = .error .keyError) := by
  refine ⟨fun _ => rfl, fun _ => rfl, ?_, ?_, ?_⟩
  · intro raw amb h
    have h1 : recodeStatus raw = .error .keyError := by
      unfold recodeStatus
      rw [if_neg h]
    simp only [runLE, leLoadClean, read_csv, monad_bind_eq_except_bind, h1,
      except_bind_ok, except_bind_error, except_bind_assoc]
  · intro raw amb h
    have h1 : corrSelect (raw.fillna 0) "benzene" (505 / 1000) = .error .keyError := by
      unfold corrSelect
      rw [numericCols_fillna, if_neg h]
    simp only [runAQ, aqLoadClean, read_csv, featurePrep, monad_bind_eq_except_bind,
      monad_pure_eq_except_ok, h1, except_bind_ok, except_bind_error, except_bind_assoc]
  · intro df amb h
    have h1 : corrSelect df "target" (305 / 1000) = .error .keyError := by
      unfold corrSelect
      rw [if_neg h]
    simp only [runMain, featurePrep, monad_bind_eq_except_bind, h1,
      except_bind_ok, except_bind_error, except_bind_assoc]

/-- Witness for C5 at concrete inputs: a frame without a `status` column,
a frame whose only `benzene`-free columns are non-numeric, and a frame
without a `target` column all stop their notebooks with `KeyError`, and
missing files stop the exercise notebooks with `FileNotFoundError`. -/
theorem c5_error_propagation_witness :
    runLE none 0 = .error .fileNotFound ∧
    runAQ none 0 = .error .fileNotFound ∧
    runLE (some ⟨[("a", [Cell.num 1])]⟩) 0 = .error .keyError ∧
    runAQ (some ⟨[("b", [Cell.str "x"])]⟩) 0 = .error .keyError ∧
    runMain ⟨[("c", [Cell.num 1])]⟩ 0 = .error .keyError :=
  ⟨c5_error_propagation.1 0,
   c5_error_propagation.2.1 0,
   c5_error_propagation.2.2.1 ⟨[("a", [Cell.num 1])]⟩ 0 (by decide),
   c5_error_propagation.2.2.2.1 ⟨[("b", [Cell.str "x"])]⟩ 0 (by decide),
   c5_error_propagation.2.2.2.2 ⟨[("c", [Cell.num 1])]⟩ 0 (by decide)⟩

/-- Pairing a column with itself pairs each present number with itself. -/
theorem pairedVals_self (cs : List Cell) :
    pairedVals cs cs = (presentNums cs).map (fun q => (q, q)) := by
  induction cs with
  | nil => rfl
  | cons c rest ih =>
    cases c <;>
      simp only [pairedVals, presentNums, List.zip_cons_cons, List.filterMap_cons,
        List.map_cons] at ih ⊢ <;>
      simp [ih]

/-- On a self-paired list, the centered cross-product sum is the centered
sum of squares. -/
theorem sCross_diag (l : List ℚ) :
    sCross (l.map (fun q => (q, q))) = (l.map (fun q => (q - qmean l) ^ 2)).sum := by
  unfold sCross
  simp [List.map_map, Function.comp_def, pow_two]

/-- The centered sum of squares of the target column is the diagonal
centered cross-product sum that `corrExceeds` sees for the
target-with-itself correlation. -/
theorem sCross_pairedVals_self (df : DataFrame) (target : String) :
    sCross (pairedVals ((df.getCol? target).getD []) ((df.getCol? target).getD []))
      = selfS df target := by
  rw [pairedVals_self, sCross_diag]
  rfl

/-- A label of a numeric column can always be looked up. -/
theorem getCol_isSome_of_mem_numericCols (df : DataFrame) (n : String)
    (h : n ∈ numericCols df) : (df.getCol? n).isSome := by
  unfold numericCols at h
  rcases List.mem_map.mp h with ⟨c, hc, rfl⟩
  have hcc : c ∈ df.cols := List.mem_of_mem_filter hc
  unfold DataFrame.getCol?
  simp only [Option.isSome_map']
  rw [List.find?_isSome]
  exact ⟨c, hcc, by simp⟩

/-- Selecting labels that all resolve succeeds and returns exactly those
columns. -/
theorem select_ok_of_subset (df : DataFrame) (ns : List String)
    (h : ∀ n ∈ ns, (df.getCol? n).isSome) :
    df.select ns = .ok ⟨ns.map (fun n => (n, (df.getCol? n).getD []))⟩ := by
  unfold DataFrame.select
  rw [if_pos]
  exact List.all_eq_true.mpr (fun n hn => by simpa using h n hn)

/-- The labels of a selected frame are the requested labels. -/
theorem names_select (df : DataFrame) (ns : List String) :
    (DataFrame.mk (ns.map (fun n => (n, (df.getCol? n).getD [])))).names = ns := by
  simp [DataFrame.names, List.map_map, Function.comp_def]

/-- Filling preserves the column labels. -/
theorem names_fillna (df : DataFrame) (v : ℚ) :
    (df.fillna v).names = df.names := by
  simp [DataFrame.names, DataFrame.fillna, List.map_map]

/-- Dropping a present label succeeds. -/
theorem drop_ok_of_mem (X : DataFrame) (n : String) (h : n ∈ X.names) :
    X.drop [n] = .ok ⟨X.cols.filter (fun c => c.1 ∉ [n])⟩ := by
  unfold DataFrame.drop
  rw [if_pos]
  simp [h]

/-- Core of claim C8: whenever the target column is numeric, has two
present values that differ (nonzero centered sum of squares), and the
threshold is below 1, the correlation-threshold selection retains the
target itself — its self-correlation is 1 — and the subsequent
select-fill-drop block succeeds: the `KeyError` branch of the drop is not
taken. -/
theorem featurePrep_retains_target (df : DataFrame) (target : String) (t' : ℚ)
    (h0 : 0 ≤ t') (h1 : t' < 1) (h2 : target ∈ numericCols df)
    (h3 : selfS df target ≠ 0) :
    ∃ sel X, corrSelect df target t' = .ok sel ∧ target ∈ sel ∧
      featurePrep df target t' = .ok X := by
  have hSnn : 0 ≤ selfS df target := by
    unfold selfS
    exact List.sum_nonneg (by
      intro x hx
      rcases List.mem_map.mp hx with ⟨q, _, rfl⟩
      positivity)
  have hSpos : 0 < selfS df target := lt_of_le_of_ne hSnn (Ne.symm h3)
  have hcorr : corrExceeds
      (pairedVals ((df.getCol? target).getD []) ((df.getCol? target).getD [])) t' = true := by
    unfold corrExceeds
    rw [decide_eq_true_eq]
    have hdiag :
        (pairedVals ((df.getCol? target).getD []) ((df.getCol? target).getD [])).map
            (fun p => (p.1, p.1))
          = pairedVals ((df.getCol? target).getD []) ((df.getCol? target).getD []) := by
      simp [pairedVals_self, List.map_map, Function.comp_def]
    have hdiag2 :
        (pairedVals ((df.getCol? target).getD []) ((df.getCol? target).getD [])).map
            (fun p => (p.2, p.2))
          = pairedVals ((df.getCol? target).getD []) ((df.getCol? target).getD []) := by
      simp [pairedVals_self, List.map_map, Function.comp_def]
    rw [hdiag, hdiag2, sCross_pairedVals_self]
    have ht2 : t' ^ 2 < 1 := pow_lt_one₀ h0 h1 (by norm_num)
    calc t' ^ 2 * selfS df target * selfS df target
        = t' ^ 2 * (selfS df target * selfS df target) := by ring
      _ < 1 * (selfS df target * selfS df target) :=
          mul_lt_mul_of_pos_right ht2 (mul_pos hSpos hSpos)
      _ = selfS df target ^ 2 := by ring
  have hcs : corrSelect df target t' = .ok ((numericCols df).filter (fun c =>
      corrExceeds (pairedVals ((df.getCol? c).getD []) ((df.getCol? target).getD [])) t')) := by
    unfold corrSelect
    rw [if_pos h2]
  set sel := (numericCols df).filter (fun c =>
    corrExceeds (pairedVals ((df.getCol? c).getD []) ((df.getCol? target).getD [])) t') with hsel
  have hmem : target ∈ sel := List.mem_filter.mpr ⟨h2, hcorr⟩
  have hsub : ∀ n ∈ sel, (df.getCol? n).isSome := by
    intro n hn
    exact getCol_isSome_of_mem_numericCols df n (List.mem_filter.mp hn).1
  have hselect := select_ok_of_subset df sel hsub
  set Xsel : DataFrame := ⟨sel.map (fun n => (n, (df.getCol? n).getD []))⟩ with hXsel
  have hnames : (Xsel.fillna 0).names = sel := by
    rw [names_fillna, hXsel, names_select]
  have hdrop := drop_ok_of_mem (Xsel.fillna 0) target (by rw [hnames]; exact hmem)
  refine ⟨sel, ⟨(Xsel.fillna 0).cols.filter (fun c => c.1 ∉ [target])⟩, hcs, hmem, ?_⟩
  simp only [featurePrep, monad_bind_eq_except_bind, hcs, except_bind_ok, hselect, hdrop]

/-- Counterexample to claim C8: the selection does not always retain the
outcome column. On a frame whose `target` column is constant, its
self-correlation is not 1 but pandas' NaN, the thresholded selection is
empty, and the drop of `target` from the selected feature matrix takes
exactly the `KeyError` branch the claim calls unreachable. -/
theorem c8_counterexample :
    corrSelect ⟨[("target", [Cell.num 3, Cell.num 3]), ("a", [Cell.num 1, Cell.num 2])]⟩
        "target" (305 / 1000) = .ok [] ∧
    featurePrep ⟨[("target", [Cell.num 3, Cell.num 3]), ("a", [Cell.num 1, Cell.num 2])]⟩
        "target" (305 / 1000) = .error .keyError := by
  constructor <;> with_unfolding_all rfl

/-- Claim C8 as amended: in every notebook, provided the outcome column is
numeric and has two differing present values (nonzero variance, so that
its self-correlation is 1 rather than NaN), the correlation-threshold
selection retains the outcome column — 1 exceeds the thresholds 0.3, 0.3
and 0.5 used by the three notebooks — so the subsequent drop of the
outcome from the feature matrix succeeds and its `KeyError` branch is not
reached. -/
theorem c8_amended (df : DataFrame) :
    ("target" ∈ numericCols df → selfS df "target" ≠ 0 →
      ∃ sel X, corrSelect df "target" (305 / 1000) = .ok sel ∧ "target" ∈ sel ∧
        featurePrep df "target" (305 / 1000) = .ok X) ∧
    ("life_expectancy" ∈ numericCols df → selfS df "life_expectancy" ≠ 0 →
      ∃ sel X, corrSelect df "life_expectancy" (305 / 1000) = .ok sel ∧
        "life_expectancy" ∈ sel ∧
        featurePrep df "life_expectancy" (305 / 1000) = .ok X) ∧
    ("benzene" ∈ numericCols df → selfS df "benzene" ≠ 0 →
      ∃ sel X, corrSelect df "benzene" (505 / 1000) = .ok sel ∧ "benzene" ∈ sel ∧
        featurePrep df "benzene" (505 / 1000) = .ok X) :=
  ⟨fun h2 h3 => featurePrep_retains_target df "target" (305 / 1000)
      (by norm_num) (by norm_num) h2 h3,
   fun h2 h3 => featurePrep_retains_target df "life_expectancy" (305 / 1000)
      (by norm_num) (by norm_num) h2 h3,
   fun h2 h3 => featurePrep_retains_target df "benzene" (505 / 1000)
      (by norm_num) (by norm_num) h2 h3⟩

/-- Witness for the amended C8 at a concrete frame whose target column is
numeric with two differing values: the selection retains `target` and the
select-fill-drop block succeeds. -/
theorem c8_amended_witness :
    ∃ sel X,
      corrSelect ⟨[("target", [Cell.num 0, Cell.num 1])]⟩ "target" (305 / 1000) = .ok sel ∧
      "target" ∈ sel ∧
      featurePrep ⟨[("target", [Cell.num 0, Cell.num 1])]⟩ "target" (305 / 1000) = .ok X :=
  (c8_amended ⟨[("target", [Cell.num 0, Cell.num 1])]⟩).1 (by decide)
    (by with_unfolding_all decide)

/-- A successful recode returns exactly `recodedFrame`. -/
theorem recodeStatus_ok (raw : DataFrame) (h : "status" ∈ raw.names) :
    recodeStatus raw = .ok (recodedFrame raw) := by
  unfold recodeStatus recodedFrame
  rw [if_pos h]

/-- The recode preserves the column labels. -/
theorem names_recodedFrame (raw : DataFrame) :
    (recodedFrame raw).names = raw.names := by
  unfold DataFrame.names recodedFrame
  rw [List.map_map]
  apply List.map_congr_left
  intro c _
  by_cases h : c.1 = "status" <;> simp [h]

/-- The recoded frame's `status` column is the cell-wise recode of the
original one. -/
theorem getCol_recodedFrame_status (raw : DataFrame) :
    (recodedFrame raw).getCol? "status"
      = (raw.getCol? "status").map (fun cs => cs.map recodeCell) := by
  rcases raw with ⟨cols⟩
  induction cols with
  | nil => rfl
  | cons c rest ih =>
    by_cases h : c.1 = "status"
    · simp [recodedFrame, DataFrame.getCol?, List.find?_cons_of_pos, h]
    · simp only [recodedFrame, DataFrame.getCol?, List.map_cons] at ih ⊢
      rw [if_neg h, List.find?_cons_of_neg, List.find?_cons_of_neg]
      · exact ih
      · simpa using h
      · simpa using h

/-- The recode leaves every column other than `status` unchanged. -/
theorem getCol_recodedFrame_other (raw : DataFrame) (name : String)
    (hn : name ≠ "status") :
    (recodedFrame raw).getCol? name = raw.getCol? name := by
  rcases raw with ⟨cols⟩
  induction cols with
  | nil => rfl
  | cons c rest ih =>
    by_cases h : c.1 = name
    · have h' : c.1 ≠ "status" := by rw [h]; exact hn
      simp only [recodedFrame, DataFrame.getCol?, List.map_cons] at ih ⊢
      rw [if_neg h', List.find?_cons_of_pos, List.find?_cons_of_pos] <;> simpa using h
    · simp only [recodedFrame, DataFrame.getCol?, List.map_cons] at ih ⊢
      by_cases h' : c.1 = "status"
      · rw [if_pos h', List.find?_cons_of_neg, List.find?_cons_of_neg]
        · exact ih
        · simpa using h
        · simpa using h
      · rw [if_neg h', List.find?_cons_of_neg, List.find?_cons_of_neg]
        · exact ih
        · simpa using h
        · simpa using h

/-- Looking a label up past a differently named head column. -/
theorem getCol_cons_ne (nm name : String) (cs : List Cell)
    (cols : List (String × List Cell)) (h : nm ≠ name) :
    (DataFrame.mk ((nm, cs) :: cols)).getCol? name
      = (DataFrame.mk cols).getCol? name := by
  unfold DataFrame.getCol?
  rw [List.find?_cons_of_neg]
  simpa using h

/-- Filling after the recode changes nothing: every recoded cell is a
number. -/
theorem fillCell_recodeCell (c : Cell) :
    fillCell 0 (recodeCell c) = recodeCell c := by
  unfold recodeCell
  split <;> rfl

/-- Decomposition of a successful life-expectancy load-and-clean: the raw
frame had a `status` column and no `index` column, and the result is the
recoded, filled frame with the fresh integer `index` column in front. -/
theorem leLoadClean_ok_decomp (raw out : DataFrame)
    (h : leLoadClean (some raw) = .ok out) :
    "status" ∈ raw.names ∧ "index" ∉ raw.names ∧
      out = ⟨("index",
        (List.range ((((recodedFrame raw).fillna 0).cols.headD ("", [])).2).length).map
          (fun i => .num i)) :: ((recodedFrame raw).fillna 0).cols⟩ := by
  unfold leLoadClean read_csv at h
  simp only [monad_bind_eq_except_bind, except_bind_ok] at h
  by_cases hs : "status" ∈ raw.names
  · rw [recodeStatus_ok raw hs, except_bind_ok] at h
    by_cases hi : "index" ∈ ((recodedFrame raw).fillna 0).names
    · unfold resetIndex at h
      rw [if_pos hi] at h
      cases h
    · have hi' : "index" ∉ raw.names := by
        rwa [names_fillna, names_recodedFrame] at hi
      unfold resetIndex at h
      rw [if_neg hi] at h
      cases h
      exact ⟨hs, hi', rfl⟩
  · have h1 : recodeStatus raw = .error .keyError := by
      unfold recodeStatus
      rw [if_neg hs]
    rw [h1, except_bind_error] at h
    cases h

/-- After a successful life-expectancy load-and-clean, the `status` column
is exactly the cell-wise recode of the raw `status` column (the later fill
does not touch it, since every recoded value is 0 or 1). -/
theorem leLoadClean_status (raw out : DataFrame)
    (h : leLoadClean (some raw) = .ok out) :
    out.getCol? "status" = (raw.getCol? "status").map (fun cs => cs.map recodeCell) := by
  obtain ⟨_, _, rfl⟩ := leLoadClean_ok_decomp raw out h
  rw [getCol_cons_ne _ _ _ _ (by decide), getCol_fillna, getCol_recodedFrame_status]
  cases raw.getCol? "status" with
  | none => rfl
  | some cs => simp [List.map_map, Function.comp_def, fillCell_recodeCell]

/-- After a successful life-expectancy load-and-clean, every raw column
other than `status` is carried over with only the constant fill applied. -/
theorem leLoadClean_other (raw out : DataFrame)
    (h : leLoadClean (some raw) = .ok out) (name : String)
    (h1 : name ∈ raw.names) (h2 : name ≠ "status") :
    out.getCol? name = (raw.getCol? name).map (fun cs => cs.map (fillCell 0)) := by
  obtain ⟨_, hi, rfl⟩ := leLoadClean_ok_decomp raw out h
  have hne : "index" ≠ name := by
    intro hc
    rw [← hc] at h1
    exact hi h1
  rw [getCol_cons_ne _ _ _ _ hne, getCol_fillna, getCol_recodedFrame_other raw name h2]

/-- Counterexample to claim C6: the life-expectancy notebook does not
consume every column as loaded — it converts the `status` column.  On a
raw frame whose `status` value is the string `"Developing"`, the loaded
frame holds the number 0 there, not the (fill-preserved) raw string. -/
theorem c6_counterexample :
    leLoadClean (some ⟨[("status", [Cell.str "Developing"]),
        ("life_expectancy", [Cell.num 70])]⟩)
      = .ok ⟨[("index", [Cell.num 0]), ("status", [Cell.num 0]),
              ("life_expectancy", [Cell.num 70])]⟩ ∧
    (DataFrame.mk [("index", [Cell.num 0]), ("status", [Cell.num 0]),
        ("life_expectancy", [Cell.num 70])]).getCol? "status"
      ≠ ((⟨[("status", [Cell.str "Developing"]), ("life_expectancy", [Cell.num 70])]⟩ :
          DataFrame).getCol? "status").map (fun cs => cs.map (fillCell 0)) := by
  constructor
  · with_unfolding_all rfl
  · with_unfolding_all decide

/-- Claim C6 as amended: each exercise notebook consumes its CSV as a
table of named columns taken as loaded, with no parsing or validation and
with only the constant fill applied to missing values — except the
life-expectancy notebook's `status` column, which is recoded from its raw
(string) values to the numbers 0/1 before the fill.  The air-quality
notebook applies only the fill. -/
theorem c6_amended :
    (∀ raw out : DataFrame, leLoadClean (some raw) = .ok out →
      (∀ name, name ∈ raw.names → name ≠ "status" →
        out.getCol? name = (raw.getCol? name).map (fun cs => cs.map (fillCell 0))) ∧
      out.getCol? "status" = (raw.getCol? "status").map (fun cs => cs.map recodeCell)) ∧
    (∀ raw : DataFrame, aqLoadClean (some raw) = .ok (raw.fillna 0) ∧
      ∀ name, (raw.fillna 0).getCol? name
        = (raw.getCol? name).map (fun cs => cs.map (fillCell 0))) :=
  ⟨fun raw out h =>
    ⟨fun name h1 h2 => leLoadClean_other raw out h name h1 h2,
     leLoadClean_status raw out h⟩,
   fun raw => ⟨rfl, fun name => getCol_fillna raw 0 name⟩⟩

/-- Witness for the amended C6 on a concrete raw frame: the non-`status`
column survives the load with only the fill applied, and the `status`
column comes out recoded. -/
theorem c6_amended_witness :
    (DataFrame.mk [("index", [Cell.num 0, Cell.num 1]),
        ("status", [Cell.num 1, Cell.num 0]),
        ("life_expectancy", [Cell.num 70, Cell.num 0])]).getCol? "life_expectancy"
      = ((⟨[("status", [Cell.str "Developed", Cell.str "Developing"]),
            ("life_expectancy", [Cell.num 70, Cell.na])]⟩ : DataFrame).getCol?
          "life_expectancy").map (fun cs => cs.map (fillCell 0)) ∧
    (DataFrame.mk [("index", [Cell.num 0, Cell.num 1]),
        ("status", [Cell.num 1, Cell.num 0]),
        ("life_expectancy", [Cell.num 70, Cell.num 0])]).getCol? "status"
      = ((⟨[("status", [Cell.str "Developed", Cell.str "Developing"]),
            ("life_expectancy", [Cell.num 70, Cell.na])]⟩ : DataFrame).getCol?
          "status").map (fun cs => cs.map recodeCell) :=
  ⟨(c6_amended.1 ⟨[("status", [Cell.str "Developed", Cell.str "Developing"]),
      ("life_expectancy", [Cell.num 70, Cell.na])]⟩
      ⟨[("index", [Cell.num 0, Cell.num 1]), ("status", [Cell.num 1, Cell.num 0]),
        ("life_expectancy", [Cell.num 70, Cell.num 0])]⟩
      (by with_unfolding_all rfl)).1 "life_expectancy" (by decide) (by decide),
   (c6_amended.1 ⟨[("status", [Cell.str "Developed", Cell.str "Developing"]),
      ("life_expectancy", [Cell.num 70, Cell.na])]⟩
      ⟨[("index", [Cell.num 0, Cell.num 1]), ("status", [Cell.num 1, Cell.num 0]),
        ("life_expectancy", [Cell.num 70, Cell.num 0])]⟩
      (by with_unfolding_all rfl)).2⟩

/-- Claim C10: the life-expectancy notebook recodes the `status` column to
a total binary encoding — the recoded value is 1 exactly on the string
`"Developed"` and 0 for every other value, strings, numbers and missing
values alike; the recode happens before the missing-value fill; and after
a successful load every `status` value is exactly the recode of the raw
one (hence 0 or 1). -/
theorem c10_status_recode :
    (∀ c : Cell, recodeCell c = if c = .str "Developed" then .num 1 else .num 0) ∧
    (∀ c : Cell, recodeCell c = .num 1 ↔ c = .str "Developed") ∧
    (∀ c : Cell, recodeCell c = .num 1 ∨ recodeCell c = .num 0) ∧
    firstPrecedes isRecodeOp isFillOp leOps = true ∧
    (∀ raw out : DataFrame, leLoadClean (some raw) = .ok out →
      out.getCol? "status" = (raw.getCol? "status").map (fun cs => cs.map recodeCell)) := by
  refine ⟨fun c => rfl, fun c => ?_, fun c => ?_, by decide, leLoadClean_status⟩
  · constructor
    · intro h
      by_cases hc : c = .str "Developed"
      · exact hc
      · exfalso
        unfold recodeCell at h
        rw [if_neg hc] at h
        exact absurd (Cell.num.inj h) (by norm_num)
    · intro h
      unfold recodeCell
      rw [if_pos h]
  · unfold recodeCell
    split
    · exact Or.inl rfl
    · exact Or.inr rfl

/-- Witness for C10 on a concrete raw frame holding a `"Developed"`
string, a `"Developing"` string and a missing value: the loaded `status`
column is their cell-wise recode `[1, 0, 0]`. -/
theorem c10_status_recode_witness :
    (DataFrame.mk [("index", [Cell.num 0, Cell.num 1, Cell.num 2]),
        ("status", [Cell.num 1, Cell.num 0, Cell.num 0])]).getCol? "status"
      = ((⟨[("status", [Cell.str "Developed", Cell.str "Developing", Cell.na])]⟩ :
          DataFrame).getCol? "status").map (fun cs => cs.map recodeCell) :=
  c10_status_recode.2.2.2.2 ⟨[("status", [Cell.str "Developed", Cell.str "Developing", Cell.na])]⟩
    ⟨[("index", [Cell.num 0, Cell.num 1, Cell.num 2]),
      ("status", [Cell.num 1, Cell.num 0, Cell.num 0])]⟩
    (by with_unfolding_all rfl)

end ModelEval
